import Mathlib

/-!
Verification of the `err-with` crate.

The crate exposes a single trait `ErrWith` with one method `err_with`,
implemented for `Result<T, E>`: `result.err_with(w)` transforms an
`Err(e)` into `Err((e, w))` and leaves an `Ok(...)` unchanged
(src/lib.rs, `impl<T, E> ErrWith<T, E> for Result<T, E>`).

We embed Rust's `Result<T, E>` as a two-constructor inductive type and
`err_with` as the exact case analysis performed by the source.
-/

universe u v x

/-- Rust's two-variant `Result<T, E>` type: `ok` holds a success value of
type `T`, `err` holds a failure value of type `E`. -/
inductive Result (T : Type u) (E : Type v) where
  | ok : T → Result T E
  | err : E → Result T E
deriving DecidableEq, Repr

/-- Embedding of `err_with` from `impl<T, E> ErrWith<T, E> for Result<T, E>`
(src/lib.rs lines 47-54): a single two-way match on the input variant,
`Ok(ok) => Ok(ok)`, `Err(error) => Err((error, with))`. -/
def Result.err_with {T : Type u} {E : Type v} {W : Type x}
    (self : Result T E) (w : W) : Result T (E × W) :=
  match self with
  | .ok v => .ok v
  | .err error => .err (error, w)

/-- Functorial map over both variants of `Result`, used to state the
parametricity (naturality) and round-trip properties of `err_with`. -/
def Result.map {T : Type u} {E : Type v} {T' : Type u} {E' : Type x}
    (f : T → T') (g : E → E') : Result T E → Result T' E'
  | .ok v => .ok (f v)
  | .err e => .err (g e)

/-- Variant test: `true` exactly when the result is the `ok` variant. -/
def Result.isOk {T : Type u} {E : Type v} : Result T E → Bool
  | .ok _ => true
  | .err _ => false

/-- C1: for every success payload `v` of any type `T` and every context
value `w` of any type `W`, `err_with` applied to `ok v` returns `ok v`:
the success payload passes through unchanged and the context value does
not appear in the output. -/
theorem err_with_ok {T : Type u} {E : Type v} {W : Type x}
    (v : T) (w : W) :
    (Result.ok (E := E) v).err_with w = Result.ok v :=
  rfl

/-- C2: for every failure value `e` of any type `E` and every context
value `w` of any type `W`, `err_with` applied to `err e` returns
`err (e, w)`: the first component of the pair is exactly `e` and the
second component is exactly `w`. -/
theorem err_with_err {T : Type u} {E : Type v} {W : Type x}
    (e : E) (w : W) :
    (Result.err (T := T) e).err_with w = Result.err (e, w) :=
  rfl

/-- C3: applying `err_with` twice to `err e`, first with context `w1` and
then with context `w2`, yields `err ((e, w1), w2)`: the contexts nest
left-to-right and are never merged, collapsed, or reordered. -/
theorem err_with_chain {T : Type u} {E : Type v} {W1 : Type x} {W2 : Type x}
    (e : E) (w1 : W1) (w2 : W2) :
    ((Result.err (T := T) e).err_with w1).err_with w2 =
      Result.err ((e, w1), w2) :=
  rfl

/-- C4: `err_with` is total and has no error branch of its own: for every
input result and every context value, the output is fully determined by a
single two-way case split, producing `ok v` when the input is `ok v` and
`err (e, w)` when the input is `err e`; there is no third possibility and
no failure raised by the adapter itself. (In this embedding `err_with` is
a structurally defined total function, mirroring the panic-free Rust
`match` with exhaustive arms.) -/
theorem err_with_total {T : Type u} {E : Type v} {W : Type x}
    (r : Result T E) (w : W) :
    (∃ v : T, r = Result.ok v ∧ r.err_with w = Result.ok v) ∨
      (∃ e : E, r = Result.err e ∧ r.err_with w = Result.err (e, w)) := by
  cases r with
  | ok v => exact Or.inl ⟨v, rfl, rfl⟩
  | err e => exact Or.inr ⟨e, rfl, rfl⟩

/-- C5: `err_with` is a pure, deterministic function of its two inputs:
any two invocations with equal input results and equal context values
produce equal outputs. -/
theorem err_with_deterministic {T : Type u} {E : Type v} {W : Type x}
    (r1 r2 : Result T E) (w1 w2 : W) (hr : r1 = r2) (hw : w1 = w2) :
    r1.err_with w1 = r2.err_with w2 := by
  rw [hr, hw]

/-- Witness for C5 at concrete inputs: two invocations on `err 2` with
context `7` produce equal outputs. -/
theorem err_with_deterministic_witness :
    (Result.err (T := Nat) (2 : Nat)).err_with (7 : Nat) =
      (Result.err (T := Nat) (2 : Nat)).err_with (7 : Nat) :=
  err_with_deterministic _ _ _ _ rfl rfl

/-- C6: on the failure path no information is lost, altered, or
reordered: whenever `err_with` applied to `err e` with context `w`
produces `err p`, the pair `p` has first component exactly `e` and second
component exactly `w`, so both the original failure and the context are
exactly recoverable from the output. -/
theorem err_with_err_recoverable {T : Type u} {E : Type v} {W : Type x}
    (e : E) (w : W) (p : E × W)
    (h : (Result.err (T := T) e).err_with w = Result.err p) :
    p.1 = e ∧ p.2 = w := by
  have hp : Result.err (T := T) (e, w) = Result.err p := h
  cases hp
  exact ⟨rfl, rfl⟩

/-- Witness for C6 at concrete inputs: from the output of
`(err 404).err_with 7` both the failure `404` and the context `7` are
recovered exactly. -/
theorem err_with_err_recoverable_witness :
    ((404 : Nat), (7 : Nat)).1 = 404 ∧ ((404 : Nat), (7 : Nat)).2 = 7 :=
  err_with_err_recoverable (T := Nat) 404 7 (404, 7) rfl

/-- C7: `err_with` is generic in its three independent type parameters
`T`, `E`, `W` with no constraints on any of them, and it only moves and
constructs values, never inspecting their contents. This parametricity is
captured by naturality: `err_with` commutes with arbitrary maps applied
to the success payload, the failure value, and the context. -/
theorem err_with_natural {T T' : Type u} {E E' : Type v} {W W' : Type x}
    (f : T → T') (g : E → E') (h : W → W')
    (r : Result T E) (w : W) :
    (r.err_with w).map f (Prod.map g h) = (r.map f g).err_with (h w) := by
  cases r <;> rfl

/-- C8: `err_with` unconditionally terminates for every input result and
every context value: it is a total, non-recursive function that always
produces an output (here exhibited explicitly by case analysis, using no
recursion). -/
theorem err_with_terminates {T : Type u} {E : Type v} {W : Type x}
    (r : Result T E) (w : W) :
    ∃ o : Result T (E × W), r.err_with w = o := by
  cases r with
  | ok v => exact ⟨Result.ok v, rfl⟩
  | err e => exact ⟨Result.err (e, w), rfl⟩

/-- C9: round-trip: for every result `r` and every context `w`, mapping
the error component of `r.err_with w` through the first projection
(dropping the attached context) yields exactly the original result `r`:
attaching and then stripping the context is the identity. -/
theorem err_with_roundtrip {T : Type u} {E : Type v} {W : Type x}
    (r : Result T E) (w : W) :
    (r.err_with w).map id Prod.fst = r := by
  cases r <;> rfl

/-- C10: variant independence of the context: for every result `r` and
any two context values `w1` and `w2`, `r.err_with w1` is a success
exactly when `r.err_with w2` is a success — the context never influences
which variant the output occupies. -/
theorem err_with_variant_independent {T : Type u} {E : Type v}
    {W1 : Type x} {W2 : Type x}
    (r : Result T E) (w1 : W1) (w2 : W2) :
    (r.err_with w1).isOk = (r.err_with w2).isOk := by
  cases r <;> rfl
